import Mathlib

set_option maxRecDepth 4000

/- Shallow embedding of the git smart-HTTP reverse proxy (gitlab-workhorse).

   Byte streams are modelled as `List Char`, HTTP bodies and header values as
   `String`.  Effects of the outside world (filesystem stat results, store
   reads, subprocess wait results, the decompressor) are passed in explicitly
   as arguments, so every definition is an executable function of its inputs
   that mirrors the control flow of the corresponding source function.

   Namespace `Git` embeds internal/git/git-http.go and the archive
   finalization; namespace `Main` embeds the single-file main-package handler
   (routing table, pre-auth forwarding, gzip body handling, pktLine);
   namespace `Redis` embeds internal/redis/keywatcher.go. -/

/-- Hexadecimal digit list of `n` (most significant first, lowercase), with
explicit fuel so that the definition is structurally recursive. -/
def hexDigitsAux (fuel : Nat) (n : Nat) : List Char :=
  match fuel with
  | 0 => []
  | f + 1 =>
    if n = 0 then [] else hexDigitsAux f (n / 16) ++ [Nat.digitChar (n % 16)]

/-- Hexadecimal rendering of `n` as produced by Go's `%x` verb (empty for 0;
the `%04x` padding is added by `fmt04x`). -/
def hexDigits (n : Nat) : List Char := hexDigitsAux n n

/-- Go `fmt.Sprintf("%04x", n)`: lowercase hexadecimal, zero-padded on the
left to a minimum width of four digits; wider numbers keep all their digits. -/
def fmt04x (n : Nat) : List Char :=
  List.replicate (4 - (hexDigits n).length) '0' ++ hexDigits n

/-- `pktLine(w, s)` writes `fmt.Fprintf(w, "%04x%s", len(s)+4, s)`; the writer
is modelled as infallible, so the function returns the bytes written. -/
def pktLine (s : String) : String := String.mk (fmt04x (s.length + 4)) ++ s

/-- `pktFlush(w)` writes the literal four bytes `0000`. -/
def pktFlush : String := "0000"

namespace Git

/-- `looksLikeRepo(p)`: false when `os.Stat(path.Join(p, "objects"))` returned
an error, true otherwise.  The stat outcome is passed in as `statErr`. -/
def looksLikeRepo (statErr : Bool) : Bool :=
  if statErr then false else true

/-- Outcome of the pre-authorized wrapper itself: `status` is the response
status it wrote (`none` when it dispatched to the inner handler), and
`dispatched` records whether the inner handler (which spawns the git
subprocess) was invoked at all. -/
structure PreAuthResult where
  status : Option Nat
  dispatched : Bool
deriving DecidableEq

/-- Inner function of `repoPreAuthorizeHandler` (git-http.go:51), which runs
only after the pre-auth backend returned 200 and the envelope was decoded.
`objectsStatErr` is the result of `os.Stat` on `<repoPath>/objects`. -/
def repoPreAuthorizeHandler (repoPath : String) (objectsStatErr : Bool) : PreAuthResult :=
  if repoPath = "" then { status := some 500, dispatched := false }
  else if looksLikeRepo objectsStatErr = false then { status := some 404, dispatched := false }
  else { status := none, dispatched := true }

/-- Response assembled by `handleGetInfoRefs`: `spawned` records whether a git
subprocess was started. -/
structure InfoRefsResult where
  status : Nat
  contentType : Option String
  cacheControl : Option String
  body : String
  spawned : Bool
deriving DecidableEq

/-- `handleGetInfoRefs` (git-http.go:68): `service` is the `service` query
parameter, `spawnOk` whether pipe creation and `cmd.Start` succeeded,
`childOut` the bytes the subprocess wrote to its standard output. -/
def handleGetInfoRefs (service : String) (spawnOk : Bool) (childOut : String) : InfoRefsResult :=
  if ¬(service = "git-upload-pack" ∨ service = "git-receive-pack") then
    { status := 404, contentType := none, cacheControl := none,
      body := "Not Found\n", spawned := false }
  else if spawnOk = false then
    { status := 500, contentType := none, cacheControl := none,
      body := "Internal server error\n", spawned := false }
  else
    { status := 200,
      contentType := some ("application/x-" ++ service ++ "-advertisement"),
      cacheControl := some "no-cache",
      body := pktLine ("# service=" ++ service ++ "\n") ++ pktFlush ++ childOut,
      spawned := true }

/-- Result of `cmd.Wait()`: a non-zero exit is an `*exec.ExitError`, any other
wait failure is some other error. -/
inductive WaitError where
  | exitError
  | otherError
deriving DecidableEq

/-- `isExitError` (git-http.go:212). -/
def isExitError (e : WaitError) : Bool :=
  match e with
  | .exitError => true
  | .otherError => false

/-- Observable behavior of `handlePostRPC`: the bytes copied to the child's
standard input, the bytes the sniffer ran on (`none` for receive-pack), the
remembered shallow-clone flag, and whether the wait error was logged. -/
structure PostRPCResult where
  status : Option Nat
  contentType : Option String
  stdinBytes : List Char
  sniffedBytes : Option (List Char)
  isShallowClone : Bool
  loggedWaitError : Bool
deriving DecidableEq

/-- `handlePostRPC` (git-http.go:119).  `scanDeepen` is the deepen sniffer
(defined in another file of the repository and treated as a parameter),
`action` the base name of the URL path, `reqBody` the request body and
`waitResult` what `cmd.Wait()` returned. -/
def handlePostRPC (scanDeepen : List Char → Bool) (action : String) (reqBody : List Char)
    (waitResult : Option WaitError) : PostRPCResult :=
  if ¬(action = "git-upload-pack" ∨ action = "git-receive-pack") then
    { status := some 500, contentType := none, stdinBytes := [],
      sniffedBytes := none, isShallowClone := false, loggedWaitError := false }
  else
    let sniffed : Option (List Char) :=
      if action = "git-upload-pack" then some (reqBody.take 4096) else none
    let isShallowClone : Bool :=
      match sniffed with
      | some buffer => scanDeepen buffer
      | none => false
    let body : List Char :=
      match sniffed with
      | some buffer => buffer ++ reqBody.drop 4096
      | none => reqBody
    { status := some 200,
      contentType := some ("application/x-" ++ action ++ "-result"),
      stdinBytes := body,
      sniffedBytes := sniffed,
      isShallowClone := isShallowClone,
      loggedWaitError :=
        match waitResult with
        | none => false
        | some err => !(isExitError err && isShallowClone) }

/-- Filesystem error classified the way `os.IsExist` classifies it. -/
inductive FsError where
  | exist
  | other
deriving DecidableEq

/-- `os.IsExist(err)`. -/
def isExist (e : FsError) : Bool :=
  match e with
  | .exist => true
  | .other => false

/-- Filesystem operation attempted by `finalizeCachedArchive`, in order. -/
inductive FinalizeOp where
  | closeTempFile
  | link (oldname newname : String)
deriving DecidableEq

/-- `finalizeCachedArchive(tempFile, archivePath)` (archive.go): close the
temporary file, then hard-link its name to `archivePath`; an `IsExist` link
error is swallowed.  `closeResult`/`linkResult` are what the two system calls
would return; the first component of the result is the trace of operations
actually attempted, the second the returned error. -/
def finalizeCachedArchive (tempFileName archivePath : String)
    (closeResult : Option FsError) (linkResult : Option FsError) :
    List FinalizeOp × Option FsError :=
  match closeResult with
  | some err => ([.closeTempFile], some err)
  | none =>
    match linkResult with
    | some err =>
      if isExist err then ([.closeTempFile, .link tempFileName archivePath], none)
      else ([.closeTempFile, .link tempFileName archivePath], some err)
    | none => ([.closeTempFile, .link tempFileName archivePath], none)

end Git

namespace Main

/-- Response of the auth backend as seen by `gitHandler.ServeHTTP`. -/
structure BackendResponse where
  statusCode : Nat
  headers : List (String × String)
  body : String
deriving DecidableEq

/-- `gitEnv`: the request envelope decoded from the auth backend's JSON body. -/
structure GitEnv where
  GL_ID : String
  RepoPath : String
  ArchivePath : String
  ArchivePrefix : String
  CommitId : String
deriving DecidableEq

/-- One row of the `gitServices` routing table (handler functions omitted;
dispatch identity is determined by `method` and `suffix`). -/
structure GitServiceEntry where
  method : String
  suffix : String
  rpc : String
deriving DecidableEq

/-- The `gitServices` routing table. -/
def gitServices : List GitServiceEntry :=
  [ { method := "GET", suffix := "/info/refs", rpc := "" },
    { method := "POST", suffix := "/git-upload-pack", rpc := "git-upload-pack" },
    { method := "POST", suffix := "/git-receive-pack", rpc := "git-receive-pack" },
    { method := "GET", suffix := "/repository/archive", rpc := "tar.gz" },
    { method := "GET", suffix := "/repository/archive.zip", rpc := "zip" },
    { method := "GET", suffix := "/repository/archive.tar", rpc := "tar" },
    { method := "GET", suffix := "/repository/archive.tar.gz", rpc := "tar.gz" },
    { method := "GET", suffix := "/repository/archive.tar.bz2", rpc := "tar.bz2" } ]

/-- `strings.HasSuffix(s, suffix)`. -/
def hasSuffix (s suffix : String) : Bool :=
  List.isSuffixOf suffix.data s.data

/-- The service lookup loop of `ServeHTTP`: first table row whose method
matches and whose suffix ends the URL path (`strings.HasSuffix`). -/
def findService (method urlPath : String) : Option GitServiceEntry :=
  gitServices.find? fun g => method == g.method && hasSuffix urlPath g.suffix

/-- `strings.EqualFold`, restricted to the ASCII case folding the handler
needs for the `WWW-Authenticate` comparison. -/
def equalFold (a b : String) : Bool := a.toLower == b.toLower

/-- What `gitHandler.ServeHTTP` did to the client connection: `status` is the
status it wrote itself (`none` when it dispatched to a service handler),
`decodeAttempted` whether it tried to JSON-decode the auth body, and
`dispatched` whether a service handler (which spawns subprocesses) ran. -/
structure ServeResult where
  status : Option Nat
  headers : List (String × String)
  body : String
  decodeAttempted : Bool
  dispatched : Bool
deriving DecidableEq

/-- `looksLikeRepo` of the main package, identical to the git package one. -/
def looksLikeRepo (statErr : Bool) : Bool :=
  if statErr then false else true

/-- `gitHandler.ServeHTTP`.  `authResult` is the outcome of `doAuthRequest`
(`Except.error` for a transport error), `decodeResult` the outcome of the
JSON decode of the 200 body, and `objectsStatErr` the `os.Stat` result on
`<env.RepoPath>/objects`. -/
def serveHTTP (method urlPath : String) (authResult : Except Unit BackendResponse)
    (decodeResult : Except Unit GitEnv) (objectsStatErr : Bool) : ServeResult :=
  match findService method urlPath with
  | none =>
    { status := some 403, headers := [], body := "Forbidden\n",
      decodeAttempted := false, dispatched := false }
  | some _ =>
    match authResult with
    | .error _ =>
      { status := some 500, headers := [], body := "Internal server error\n",
        decodeAttempted := false, dispatched := false }
    | .ok authResponse =>
      if authResponse.statusCode ≠ 200 then
        { status := some authResponse.statusCode, headers := authResponse.headers,
          body := authResponse.body, decodeAttempted := false, dispatched := false }
      else
        match decodeResult with
        | .error _ =>
          { status := some 500, headers := [], body := "Internal server error\n",
            decodeAttempted := true, dispatched := false }
        | .ok _env =>
          let wwwAuth := authResponse.headers.filter fun kv => equalFold kv.1 "WWW-Authenticate"
          if looksLikeRepo objectsStatErr = false then
            { status := some 404, headers := wwwAuth, body := "Not Found\n",
              decodeAttempted := true, dispatched := false }
          else
            { status := none, headers := wwwAuth, body := "",
              decodeAttempted := true, dispatched := true }

/-- Observable behavior of the main package's `handlePostRPC`. -/
structure PostRPCResult where
  status : Option Nat
  contentType : Option String
  stdinBytes : List Char
  loggedWaitError : Bool
deriving DecidableEq

/-- `handlePostRPC` of the main package: wraps the body in `gzip.NewReader`
when the `Content-Encoding` header is `gzip`, streams it to the child's
standard input, then logs any wait error.  `gzipNewReader` models the
streaming decompressor (an error stands for a failed `gzip.NewReader`). -/
def handlePostRPC (gzipNewReader : List Char → Except Unit (List Char))
    (contentEncoding : String) (reqBody : List Char) (rpc : String)
    (waitResult : Option Git.WaitError) : PostRPCResult :=
  match (if contentEncoding = "gzip" then gzipNewReader reqBody else Except.ok reqBody) with
  | .error _ =>
    { status := some 500, contentType := none, stdinBytes := [], loggedWaitError := false }
  | .ok body =>
    { status := some 200,
      contentType := some ("application/x-" ++ rpc ++ "-result"),
      stdinBytes := body,
      loggedWaitError := waitResult.isSome }

end Main

namespace Redis

/-- `WatchKeyStatus` with the source's constructor names. -/
inductive WatchKeyStatus where
  | WatchKeyStatusFailure
  | WatchKeyStatusNotifiedNoChange
  | WatchKeyStatusTimedout
  | WatchKeyStatusImmediately
  | WatchKeyStatusNotified
deriving DecidableEq

/-- Which arm of the `select` in `WatchKey` fired: a notification on the
subscription channel (carrying the result of the re-read `GetString`), or the
timeout timer. -/
inductive WatchEvent where
  | notified (reread : Except Unit String)
  | timeout

/-- `WatchKey(key, value, timeout)` (keywatcher.go:153).  `firstGet` is the
result of the initial `GetString(key)`; `event` describes which `select` arm
fired and, for a notification, what the re-read returned. -/
def WatchKey (value : String) (firstGet : Except Unit String) (event : WatchEvent) :
    WatchKeyStatus :=
  match firstGet with
  | .error _ => .WatchKeyStatusFailure
  | .ok currentValue =>
    if currentValue ≠ value then .WatchKeyStatusImmediately
    else
      match event with
      | .notified reread =>
        match reread with
        | .error _ => .WatchKeyStatusFailure
        | .ok cv =>
          if cv ≠ value then .WatchKeyStatusNotified else .WatchKeyStatusNotifiedNoChange
      | .timeout => .WatchKeyStatusTimedout

/-- The shared `keyWatcher` map: key to list of subscribed channels, channels
identified by numbers; an absent key is the empty list. -/
abbrev KeyWatcherMap := String → List Nat

/-- `addKeyChan` (keywatcher.go:110): append the channel to the key's list. -/
def addKeyChan (key : String) (c : Nat) (m : KeyWatcherMap) : KeyWatcherMap :=
  fun k => if k = key then m key ++ [c] else m k

/-- `delKeyChan` (keywatcher.go:117): remove the first occurrence of the
channel from the key's list (the loop breaks after the first match); deleting
the emptied map entry is invisible in this representation. -/
def delKeyChan (key : String) (c : Nat) (m : KeyWatcherMap) : KeyWatcherMap :=
  fun k => if k = key then (m key).erase c else m k

/-- `notifyChanWatchers` (keywatcher.go:98): deliver to every channel of the
key and drop the key's whole list from the map. -/
def notifyChanWatchers (key : String) (m : KeyWatcherMap) : KeyWatcherMap :=
  fun k => if k = key then [] else m k

end Redis

theorem hexDigitsAux_stable : ∀ (n f f' : Nat), n ≤ f → n ≤ f' →
    hexDigitsAux f n = hexDigitsAux f' n := by
  intro n
  induction n using Nat.strong_induction_on with
  | _ n ih =>
    intro f f' hf hf'
    cases n with
    | zero =>
      cases f <;> cases f' <;> simp [hexDigitsAux]
    | succ m =>
      cases f with
      | zero => omega
      | succ g =>
        cases f' with
        | zero => omega
        | succ g' =>
          have hdiv : (m + 1) / 16 < m + 1 := Nat.div_lt_self (Nat.succ_pos m) (by omega)
          have e1 : hexDigitsAux (g + 1) (m + 1)
              = hexDigitsAux g ((m + 1) / 16) ++ [Nat.digitChar ((m + 1) % 16)] := by
            simp [hexDigitsAux]
          have e2 : hexDigitsAux (g' + 1) (m + 1)
              = hexDigitsAux g' ((m + 1) / 16) ++ [Nat.digitChar ((m + 1) % 16)] := by
            simp [hexDigitsAux]
          rw [e1, e2, ih ((m + 1) / 16) hdiv g g' (by omega) (by omega)]

theorem hexDigits_succ (n : Nat) (h : 0 < n) :
    hexDigits n = hexDigits (n / 16) ++ [Nat.digitChar (n % 16)] := by
  cases n with
  | zero => omega
  | succ m =>
    have hdiv : (m + 1) / 16 < m + 1 := Nat.div_lt_self (Nat.succ_pos m) (by omega)
    have e1 : hexDigits (m + 1)
        = hexDigitsAux m ((m + 1) / 16) ++ [Nat.digitChar ((m + 1) % 16)] := by
      simp [hexDigits, hexDigitsAux]
    rw [e1, hexDigitsAux_stable ((m + 1) / 16) m ((m + 1) / 16) (by omega) (by omega)]
    rfl

theorem hexDigits_length_ge (k : Nat) : ∀ n, 16 ^ k ≤ n → k + 1 ≤ (hexDigits n).length := by
  induction k with
  | zero =>
    intro n hn
    have h0 : 0 < n := by simpa using hn
    rw [hexDigits_succ n h0]
    simp
  | succ k ih =>
    intro n hn
    have hpow : (0:Nat) < 16 ^ (k + 1) := Nat.pos_pow_of_pos _ (by omega)
    have h0 : 0 < n := lt_of_lt_of_le hpow hn
    have hdiv : 16 ^ k ≤ n / 16 := by
      rw [Nat.le_div_iff_mul_le (by omega : 0 < 16)]
      calc 16 ^ k * 16 = 16 ^ (k + 1) := (pow_succ 16 k).symm
        _ ≤ n := hn
    have hlen := ih (n / 16) hdiv
    rw [hexDigits_succ n h0]
    rw [List.length_append]
    simp only [List.length_singleton]
    omega

/-- C1 counterexample: with an empty `RepoPath` (and `<repo_path>/objects`
absent) `repoPreAuthorizeHandler` responds 500, not the claimed 404. -/
theorem c1_empty_repo_path_counterexample :
    (Git.repoPreAuthorizeHandler "" true).status = some 500 ∧
    ¬((Git.repoPreAuthorizeHandler "" true).status = some 404) := by
  constructor <;> decide

/-- C1 (amended): after the pre-auth backend returned 200, an empty
`repo_path` makes the handler respond 500, a non-empty `repo_path` whose
`objects` directory does not exist makes it respond 404; in both cases the
inner handler is not dispatched, so no subprocess is spawned. -/
theorem c1_preauth_gate (repoPath : String) (objectsStatErr : Bool) :
    (repoPath = "" →
      Git.repoPreAuthorizeHandler repoPath objectsStatErr
        = { status := some 500, dispatched := false }) ∧
    (repoPath ≠ "" → objectsStatErr = true →
      Git.repoPreAuthorizeHandler repoPath objectsStatErr
        = { status := some 404, dispatched := false }) := by
  constructor
  · intro h
    simp [Git.repoPreAuthorizeHandler, h]
  · intro h h2
    simp [Git.repoPreAuthorizeHandler, Git.looksLikeRepo, h, h2]

theorem c1_preauth_gate_witness :
    Git.repoPreAuthorizeHandler "" true
      = { status := some 500, dispatched := false } ∧
    Git.repoPreAuthorizeHandler "/srv/r.git" true
      = { status := some 404, dispatched := false } :=
  ⟨(c1_preauth_gate "" true).1 rfl,
   (c1_preauth_gate "/srv/r.git" true).2 (by decide) rfl⟩

/-- C2: for a POST RPC request on a valid action whose child exits non-zero
after streaming started, the response status stays 200 and the exit is logged
except exactly when the action is upload-pack and the sniffer flagged a
shallow clone. -/
theorem c2_exit_policy (scanDeepen : List Char → Bool) (action : String)
    (reqBody : List Char)
    (hact : action = "git-upload-pack" ∨ action = "git-receive-pack") :
    (Git.handlePostRPC scanDeepen action reqBody (some .exitError)).status = some 200 ∧
    ((Git.handlePostRPC scanDeepen action reqBody (some .exitError)).loggedWaitError = false ↔
      (action = "git-upload-pack" ∧ scanDeepen (reqBody.take 4096) = true)) := by
  rcases hact with h | h <;> subst h <;>
    simp [Git.handlePostRPC, Git.isExitError]

theorem c2_exit_policy_witness :
    (Git.handlePostRPC (fun _ => true) "git-upload-pack" [] (some .exitError)).status
      = some 200 ∧
    (Git.handlePostRPC (fun _ => true) "git-upload-pack" [] (some .exitError)).loggedWaitError
      = false := by
  have h := c2_exit_policy (fun _ => true) "git-upload-pack" [] (Or.inl rfl)
  exact ⟨h.1, h.2.mpr ⟨rfl, rfl⟩⟩

/-- C4: for every upload-pack POST body, the handler buffers at most 4096
bytes, runs the sniffer on exactly that buffered prefix, and the child's
standard input receives the buffered prefix concatenated with the remainder,
i.e. the unmodified original stream (any body length, 4095 and 4096
included). -/
theorem c4_upload_pack_buffer (scanDeepen : List Char → Bool) (reqBody : List Char)
    (waitResult : Option Git.WaitError) :
    (Git.handlePostRPC scanDeepen "git-upload-pack" reqBody waitResult).stdinBytes
      = reqBody.take 4096 ++ reqBody.drop 4096 ∧
    (Git.handlePostRPC scanDeepen "git-upload-pack" reqBody waitResult).stdinBytes
      = reqBody ∧
    (Git.handlePostRPC scanDeepen "git-upload-pack" reqBody waitResult).sniffedBytes
      = some (reqBody.take 4096) ∧
    (reqBody.take 4096).length ≤ 4096 ∧
    (Git.handlePostRPC scanDeepen "git-upload-pack" reqBody waitResult).isShallowClone
      = scanDeepen (reqBody.take 4096) := by
  refine ⟨?_, ?_, ?_, ?_, ?_⟩ <;>
    simp [Git.handlePostRPC, List.take_append_drop, List.length_take]

/-- C10: `pktLine` has no upper-bound check on the length field: when
`len(s)+4` exceeds 0xFFFF it still writes (the model is total), emitting a
length field of more than four hexadecimal digits instead of an error. -/
theorem c10_pktLine_overflow (s : String) (h : 0xFFFF < s.length + 4) :
    pktLine s = String.mk (fmt04x (s.length + 4)) ++ s ∧
    4 < (fmt04x (s.length + 4)).length := by
  constructor
  · rfl
  · have h16 : 16 ^ 4 ≤ s.length + 4 := by norm_num at h ⊢; omega
    have h5 : 4 + 1 ≤ (hexDigits (s.length + 4)).length := hexDigits_length_ge 4 _ h16
    unfold fmt04x
    rw [List.length_append, List.length_replicate]
    omega

def c10Input : String := String.mk (List.replicate 65532 'a')

theorem c10_pktLine_overflow_witness :
    0xFFFF < c10Input.length + 4 ∧ 4 < (fmt04x (c10Input.length + 4)).length := by
  have hlen : c10Input.length = 65532 := by
    show (List.replicate 65532 'a').length = 65532
    rw [List.length_replicate]
  have h : 0xFFFF < c10Input.length + 4 := by rw [hlen]; norm_num
  exact ⟨h, (c10_pktLine_overflow c10Input h).2⟩

/-- C3: for every POST RPC request with `Content-Encoding: gzip`, the body
handed to the child's standard input is the decompressor's output; for every
other request the raw body is streamed as-is. -/
theorem c3_gzip_body (gzipNewReader : List Char → Except Unit (List Char))
    (contentEncoding : String) (reqBody : List Char) (rpc : String)
    (waitResult : Option Git.WaitError) :
    (contentEncoding = "gzip" →
      ∀ decompressed, gzipNewReader reqBody = .ok decompressed →
        (Main.handlePostRPC gzipNewReader contentEncoding reqBody rpc waitResult).stdinBytes
          = decompressed) ∧
    (contentEncoding ≠ "gzip" →
      (Main.handlePostRPC gzipNewReader contentEncoding reqBody rpc waitResult).stdinBytes
        = reqBody) := by
  constructor
  · intro h d hd
    simp [Main.handlePostRPC, h, hd]
  · intro h
    simp [Main.handlePostRPC, h]

theorem c3_gzip_body_witness :
    (Main.handlePostRPC (fun l => .ok ('u' :: l)) "gzip" ['a'] "git-receive-pack"
      none).stdinBytes = ['u', 'a'] ∧
    (Main.handlePostRPC (fun l => .ok ('u' :: l)) "identity" ['a'] "git-receive-pack"
      none).stdinBytes = ['a'] :=
  ⟨(c3_gzip_body (fun l => .ok ('u' :: l)) "gzip" ['a'] "git-receive-pack" none).1
      rfl ['u', 'a'] rfl,
   (c3_gzip_body (fun l => .ok ('u' :: l)) "identity" ['a'] "git-receive-pack" none).2
      (by decide)⟩

/-- C5: a GET info/refs request with an unsupported service parameter gets a
404 and spawns nothing; a supported one (given a successful spawn) gets 200,
`application/x-<service>-advertisement`, and a body that is the pkt-line of
`# service=<service>\n` (a four-digit lowercase hex length field), then
`0000`, then the child's standard output. -/
theorem c5_info_refs (service : String) (spawnOk : Bool) (childOut : String) :
    (¬(service = "git-upload-pack" ∨ service = "git-receive-pack") →
      (Git.handleGetInfoRefs service spawnOk childOut).status = 404 ∧
      (Git.handleGetInfoRefs service spawnOk childOut).spawned = false) ∧
    ((service = "git-upload-pack" ∨ service = "git-receive-pack") → spawnOk = true →
      (Git.handleGetInfoRefs service spawnOk childOut).status = 200 ∧
      (Git.handleGetInfoRefs service spawnOk childOut).contentType
        = some ("application/x-" ++ service ++ "-advertisement") ∧
      (Git.handleGetInfoRefs service spawnOk childOut).body
        = pktLine ("# service=" ++ service ++ "\n") ++ "0000" ++ childOut ∧
      (fmt04x (("# service=" ++ service ++ "\n").length + 4)).length = 4) := by
  constructor
  · intro hbad
    simp [Git.handleGetInfoRefs, hbad]
  · intro hgood hok
    subst hok
    rcases hgood with h | h <;> subst h <;>
      refine ⟨by simp [Git.handleGetInfoRefs], by simp [Git.handleGetInfoRefs],
        by simp [Git.handleGetInfoRefs, pktFlush], by decide⟩

theorem c5_info_refs_witness :
    (Git.handleGetInfoRefs "foo" true "").status = 404 ∧
    (Git.handleGetInfoRefs "foo" true "").spawned = false ∧
    (Git.handleGetInfoRefs "git-upload-pack" true "OUT").body
      = "001e# service=git-upload-pack\n0000OUT" := by
  have h1 := (c5_info_refs "foo" true "").1 (by decide)
  have h2 := (c5_info_refs "git-upload-pack" true "OUT").2 (Or.inl rfl) rfl
  refine ⟨h1.1, h1.2, ?_⟩
  rw [h2.2.2.1]
  decide

/-- C6: when the pre-auth backend answers non-200 on a routed request, the
proxy's response carries exactly that status, all backend headers and the
backend body, with no JSON decode attempted and no service handler (hence no
subprocess) dispatched. -/
theorem c6_non200_forwarded (method urlPath : String)
    (authResponse : Main.BackendResponse) (decodeResult : Except Unit Main.GitEnv)
    (objectsStatErr : Bool)
    (hroute : (Main.findService method urlPath).isSome = true)
    (hstatus : authResponse.statusCode ≠ 200) :
    Main.serveHTTP method urlPath (.ok authResponse) decodeResult objectsStatErr
      = { status := some authResponse.statusCode, headers := authResponse.headers,
          body := authResponse.body, decodeAttempted := false, dispatched := false } := by
  unfold Main.serveHTTP
  cases hfind : Main.findService method urlPath with
  | none => rw [hfind] at hroute; simp at hroute
  | some g => simp [hstatus]

theorem c6_non200_forwarded_witness :
    Main.serveHTTP "GET" "/project/info/refs"
        (.ok { statusCode := 401,
               headers := [("Www-Authenticate", "Basic realm=x")],
               body := "denied" })
        (.error ()) true
      = { status := some 401, headers := [("Www-Authenticate", "Basic realm=x")],
          body := "denied", decodeAttempted := false, dispatched := false } :=
  c6_non200_forwarded "GET" "/project/info/refs"
    { statusCode := 401, headers := [("Www-Authenticate", "Basic realm=x")],
      body := "denied" }
    (.error ()) true (by decide) (by decide)

/-- C7: `WatchKey` returns Failure when the initial fetch fails, Immediately
when the fetched value differs from the expected one, the changed/unchanged
notified statuses according to the re-read value when the channel fires, and
Timedout when the timer fires first. -/
theorem c7_watch_key (value : String) (firstGet : Except Unit String)
    (event : Redis.WatchEvent) :
    (firstGet = .error () →
      Redis.WatchKey value firstGet event = .WatchKeyStatusFailure) ∧
    (∀ cv, firstGet = .ok cv → cv ≠ value →
      Redis.WatchKey value firstGet event = .WatchKeyStatusImmediately) ∧
    (∀ rv, firstGet = .ok value → event = .notified (.ok rv) →
      Redis.WatchKey value firstGet event
        = if rv ≠ value then .WatchKeyStatusNotified else .WatchKeyStatusNotifiedNoChange) ∧
    (firstGet = .ok value → event = .notified (.error ()) →
      Redis.WatchKey value firstGet event = .WatchKeyStatusFailure) ∧
    (firstGet = .ok value → event = .timeout →
      Redis.WatchKey value firstGet event = .WatchKeyStatusTimedout) := by
  refine ⟨?_, ?_, ?_, ?_, ?_⟩
  · intro h
    subst h
    simp [Redis.WatchKey]
  · intro cv h hne
    subst h
    simp [Redis.WatchKey, hne]
  · intro rv h hev
    subst h
    subst hev
    simp [Redis.WatchKey]
  · intro h hev
    subst h
    subst hev
    simp [Redis.WatchKey]
  · intro h hev
    subst h
    subst hev
    simp [Redis.WatchKey]

theorem c7_watch_key_witness :
    Redis.WatchKey "v1" (.ok "v2") .timeout = .WatchKeyStatusImmediately ∧
    Redis.WatchKey "v1" (.ok "v1") (.notified (.ok "v3")) = .WatchKeyStatusNotified ∧
    Redis.WatchKey "v1" (.ok "v1") (.notified (.ok "v1")) = .WatchKeyStatusNotifiedNoChange ∧
    Redis.WatchKey "v1" (.ok "v1") .timeout = .WatchKeyStatusTimedout ∧
    Redis.WatchKey "v1" (.error ()) .timeout = .WatchKeyStatusFailure := by
  refine ⟨?_, ?_, ?_, ?_, ?_⟩
  · exact (c7_watch_key "v1" (.ok "v2") .timeout).2.1 "v2" rfl (by decide)
  · rw [(c7_watch_key "v1" (.ok "v1") (.notified (.ok "v3"))).2.2.1 "v3" rfl rfl]
    decide
  · rw [(c7_watch_key "v1" (.ok "v1") (.notified (.ok "v1"))).2.2.1 "v1" rfl rfl]
    decide
  · exact (c7_watch_key "v1" (.ok "v1") .timeout).2.2.2.2 rfl rfl
  · exact (c7_watch_key "v1" (.error ()) .timeout).1 rfl

/-- C8: a channel that occurs at most once in the map, and only under its own
key (true of every channel `WatchKey` registers, since each call makes a fresh
channel and adds it once), is gone from the whole map after `delKeyChan`; and
this also holds when the publisher's `notifyChanWatchers` already removed the
key's whole list before the deferred `delKeyChan` ran, so the removal is
harmless in either interleaving. -/
theorem c8_subscription_removed (m : Redis.KeyWatcherMap) (key : String) (c : Nat)
    (hcount : (m key).count c ≤ 1)
    (hothers : ∀ k, k ≠ key → c ∉ m k) :
    (∀ k, c ∉ Redis.delKeyChan key c m k) ∧
    (∀ k2 k, c ∉ Redis.delKeyChan key c (Redis.notifyChanWatchers k2 m) k) := by
  have herase : c ∉ (m key).erase c := by
    have hc : ((m key).erase c).count c = 0 := by
      rw [List.count_erase_self]
      omega
    exact List.count_eq_zero.mp hc
  constructor
  · intro k
    by_cases hk : k = key
    · subst hk
      simpa [Redis.delKeyChan] using herase
    · simpa [Redis.delKeyChan, hk] using hothers k hk
  · intro k2 k
    by_cases hk : k = key
    · subst hk
      by_cases hk2 : k = k2
      · subst hk2
        simp [Redis.delKeyChan, Redis.notifyChanWatchers]
      · simpa [Redis.delKeyChan, Redis.notifyChanWatchers, hk2] using herase
    · by_cases hk2 : k = k2
      · subst hk2
        simp [Redis.delKeyChan, Redis.notifyChanWatchers, hk]
      · simpa [Redis.delKeyChan, Redis.notifyChanWatchers, hk, hk2] using hothers k hk

def c8Map : Redis.KeyWatcherMap := Redis.addKeyChan "k1" 7 (fun _ => [])

theorem c8_subscription_removed_witness :
    7 ∉ Redis.delKeyChan "k1" 7 c8Map "k1" ∧
    7 ∉ Redis.delKeyChan "k1" 7 (Redis.notifyChanWatchers "k1" c8Map) "k1" := by
  have hcount : (c8Map "k1").count 7 ≤ 1 := by decide
  have hothers : ∀ k, k ≠ "k1" → 7 ∉ c8Map k := by
    intro k hk
    simp [c8Map, Redis.addKeyChan, hk]
  have h := c8_subscription_removed c8Map "k1" 7 hcount hothers
  exact ⟨h.1 "k1", h.2 "k1" "k1"⟩

/-- C9: finalizing a cached archive closes the temporary file and only then
links its name to `archive_path`; a close error aborts before any link is
attempted, an `IsExist` link error is reported as success, and any other link
error is reported as an error. -/
theorem c9_finalize_archive (tempFileName archivePath : String)
    (linkResult : Option Git.FsError) :
    ((Git.finalizeCachedArchive tempFileName archivePath none linkResult).1
      = [.closeTempFile, .link tempFileName archivePath]) ∧
    ((Git.finalizeCachedArchive tempFileName archivePath none linkResult).2 = none ↔
      (linkResult = none ∨ linkResult = some .exist)) ∧
    (∀ closeErr,
      Git.finalizeCachedArchive tempFileName archivePath (some closeErr) linkResult
        = ([.closeTempFile], some closeErr)) := by
  refine ⟨?_, ?_, ?_⟩
  · cases linkResult with
    | none => rfl
    | some e => cases e <;> rfl
  · cases linkResult with
    | none => simp [Git.finalizeCachedArchive]
    | some e => cases e <;> simp [Git.finalizeCachedArchive, Git.isExist]
  · intro closeErr
    rfl
